import Mathlib

/-
Shallow embedding of src/Source/SceneManager.cpp (Open-GL-Final).

Scalar values (GLM floats) are modelled as rationals; all the constants in
the source are decimal literals, so they embed exactly.  Image loading
(stbi_load) and OpenGL name generation (glGenTextures) are environment
effects and are modelled as oracle inputs.  Calls into OpenGL and into the
ShaderManager are modelled as emitted event lists.
-/

set_option autoImplicit false

namespace SceneMgr

/-- A 3-component vector, modelling glm::vec3. -/
abbrev Vec3 (α : Type) := α × α × α

/-- A 4-component vector, modelling glm::vec4. -/
abbrev Vec4 (α : Type) := α × α × α × α

/-- A 4x4 matrix, modelling glm::mat4.  glm stores matrices column-major;
we use the mathematical row/column convention, under which glm's
operator* is the ordinary matrix product. -/
abbrev Mat4 (α : Type) := Matrix (Fin 4) (Fin 4) α

/-- Modelled from the spec: the OBJECT_MATERIAL struct is declared in
SceneManager.h, which is not in the repository snapshot; its five value
fields and tag are visible from every use site in SceneManager.cpp. -/
structure OBJECT_MATERIAL where
  ambientColor : Vec3 ℚ
  ambientStrength : ℚ
  diffuseColor : Vec3 ℚ
  specularColor : Vec3 ℚ
  shininess : ℚ
  tag : String
deriving DecidableEq, Repr

/-- Modelled from the spec: the TEXTURE_ID struct (an OpenGL texture name
paired with a lookup tag) is declared in SceneManager.h; both fields are
visible from the use sites in SceneManager.cpp.  The ID is a GLuint. -/
structure TEXTURE_ID where
  ID : Nat
  tag : String
deriving DecidableEq, Repr

/-- The mutable members of SceneManager.  Modelled from the spec: the header
declares `m_textureIDs` as a 16-entry TEXTURE_ID array with an int counter
`m_loadedTextures`, and `m_objectMaterials` as a std::vector.  We model the
registry as the list of the first `m_loadedTextures` array entries, so the
counter is the list length; writes past entry 15 of the C++ array are
out of bounds (see TEXTURE_SLOT_CAPACITY). -/
structure SceneState where
  m_textureIDs : List TEXTURE_ID
  m_objectMaterials : List OBJECT_MATERIAL
deriving DecidableEq, Repr

/-- The value of the `m_loadedTextures` counter in a given state. -/
def m_loadedTextures (s : SceneState) : Nat := s.m_textureIDs.length

/-- Modelled from the spec: "linear array scans over at most 16 textures";
the header declares the m_textureIDs array with 16 entries. -/
def TEXTURE_SLOT_CAPACITY : Nat := 16

/-- Modelled from the spec: textures and materials are loaded at startup,
so the registry and material list start empty. -/
def initialState : SceneState := ⟨[], []⟩

/-- The result stbi_load reports on success: dimensions and channel count. -/
structure ImageInfo where
  width : Int
  height : Int
  colorChannels : Int
deriving DecidableEq, Repr

/-- SceneManager::CreateGLTexture.  `image` is the stbi_load result for the
filename (`none` when the file could not be parsed) and `textureID` is the
name glGenTextures returned.  When the image has 3 channels it is uploaded
as GL_RGB8, with 4 channels as GL_RGBA8, and in both cases the texture is
registered at index m_loadedTextures and the counter is incremented; any
other channel count returns false before registering, and a failed load
returns false.  Returns the bool result and the resulting state. -/
def createGLTexture (image : Option ImageInfo) (textureID : Nat)
    (tag : String) (s : SceneState) : Bool × SceneState :=
  match image with
  | some info =>
      if info.colorChannels = 3 then
        (true, { s with m_textureIDs := s.m_textureIDs ++ [⟨textureID, tag⟩] })
      else if info.colorChannels = 4 then
        (true, { s with m_textureIDs := s.m_textureIDs ++ [⟨textureID, tag⟩] })
      else
        (false, s)
  | none => (false, s)

/-- The array index CreateGLTexture writes its registration at: the value
of m_loadedTextures before the call. -/
def createWriteIndex (s : SceneState) : Nat := m_loadedTextures s

/-- Runs a sequence of CreateGLTexture calls; each element carries the
stbi_load result, the generated texture name and the tag of one call. -/
def runCreates : List (Option ImageInfo × Nat × String) → SceneState → SceneState
  | [], s => s
  | (image, textureID, tag) :: rest, s =>
      runCreates rest (createGLTexture image textureID tag s).2

/-- The loop body of SceneManager::FindTextureID: scan from the front,
return the ID of the first entry whose tag matches, else the initial -1. -/
def findTextureIDLoop : List TEXTURE_ID → String → Int
  | [], _ => -1
  | e :: rest, tag => if e.tag = tag then (e.ID : Int) else findTextureIDLoop rest tag

/-- SceneManager::FindTextureID. -/
def findTextureID (s : SceneState) (tag : String) : Int :=
  findTextureIDLoop s.m_textureIDs tag

/-- The loop body of SceneManager::FindTextureSlot: scan from the front
carrying the running index, return the index of the first entry whose tag
matches, else the initial -1. -/
def findTextureSlotLoop : List TEXTURE_ID → String → Nat → Int
  | [], _, _ => -1
  | e :: rest, tag, index =>
      if e.tag = tag then (index : Int) else findTextureSlotLoop rest tag (index + 1)

/-- SceneManager::FindTextureSlot. -/
def findTextureSlot (s : SceneState) (tag : String) : Int :=
  findTextureSlotLoop s.m_textureIDs tag 0

/-- The five assignments in the FindMaterial match branch: copy the value
fields of the matched entry into the out-parameter; the tag field of the
out-parameter is not assigned. -/
def copyMaterialValues (e material : OBJECT_MATERIAL) : OBJECT_MATERIAL :=
  { material with
      ambientColor := e.ambientColor
      ambientStrength := e.ambientStrength
      diffuseColor := e.diffuseColor
      specularColor := e.specularColor
      shininess := e.shininess }

/-- The loop body of SceneManager::FindMaterial: scan for the first entry
whose tag matches and copy its five value fields (not its tag) into the
out-parameter; if none matches the out-parameter is returned unchanged. -/
def findMaterialLoop : List OBJECT_MATERIAL → String → OBJECT_MATERIAL → OBJECT_MATERIAL
  | [], _, material => material
  | e :: rest, tag, material =>
      if e.tag = tag then
        copyMaterialValues e material
      else
        findMaterialLoop rest tag material

/-- SceneManager::FindMaterial.  Returns false immediately when the material
list is empty; otherwise runs the scan loop and returns true regardless of
whether a match was found.  The second component is the value of the
reference out-parameter after the call. -/
def findMaterial (s : SceneState) (tag : String)
    (material : OBJECT_MATERIAL) : Bool × OBJECT_MATERIAL :=
  if s.m_objectMaterials = [] then
    (false, material)
  else
    (true, findMaterialLoop s.m_objectMaterials tag material)

/-- Calls into the OpenGL texture-object API, as emitted events. -/
inductive GLCall where
  /-- glGenTextures(n, ids): generate n new texture names. -/
  | genTextures (n : Nat)
  /-- glDeleteTextures(1, &id): delete the texture object named id. -/
  | deleteTextures (id : Nat)
  /-- glActiveTexture(GL_TEXTURE0 + unit). -/
  | activeTexture (unit : Nat)
  /-- glBindTexture(GL_TEXTURE_2D, id). -/
  | bindTexture (id : Nat)
deriving DecidableEq, Repr

/-- Whether a GL call is a glDeleteTextures call. -/
def isDeleteCall : GLCall → Bool
  | GLCall.deleteTextures _ => true
  | _ => false

/-- Calls into the ShaderManager uniform-setting API, as emitted events.
Parametric in the scalar type so the transform matrix can be stated over
any field with trigonometric operations. -/
inductive ShaderCall (α : Type) where
  | setMat4Value (valueName : String) (value : Mat4 α)
  | setIntValue (valueName : String) (value : Int)
  | setFloatValue (valueName : String) (value : α)
  | setVec2Value (valueName : String) (value : α × α)
  | setVec3Value (valueName : String) (value : Vec3 α)
  | setVec4Value (valueName : String) (value : Vec4 α)
  | setSampler2DValue (valueName : String) (value : Int)
  | setBoolValue (valueName : String) (value : Bool)

/-- SceneManager::BindGLTextures: for each registered slot i, activate
texture unit i and bind the texture object stored there. -/
def bindGLTextures (s : SceneState) : List GLCall :=
  (List.range (m_loadedTextures s)).flatMap fun i =>
    [GLCall.activeTexture i,
     GLCall.bindTexture ((s.m_textureIDs.getD i ⟨0, ""⟩).ID)]

/-- The loop of SceneManager::DestroyGLTextures, starting at slot index i:
each iteration executes glGenTextures(1, &m_textureIDs[i].ID), overwriting
the stored ID with the fresh name the oracle `gen` supplies for that
iteration. -/
def regenIDs (gen : Nat → Nat) : Nat → List TEXTURE_ID → List TEXTURE_ID
  | _, [] => []
  | i, e :: rest => { e with ID := gen i } :: regenIDs gen (i + 1) rest

/-- SceneManager::DestroyGLTextures.  The loop body is
glGenTextures(1, &m_textureIDs[i].ID): it emits a glGenTextures call per
registered slot and overwrites the stored ID with the fresh name the
oracle `gen` supplies for that iteration; no glDeleteTextures is ever
emitted.  Returns the resulting state and the emitted GL calls. -/
def destroyGLTextures (gen : Nat → Nat) (s : SceneState) : SceneState × List GLCall :=
  ({ s with m_textureIDs := regenIDs gen 0 s.m_textureIDs },
   List.replicate (m_loadedTextures s) (GLCall.genTextures 1))

/-- Whether m_pShaderManager is NULL.  The pointer is set once in the
constructor, so the methods are modelled as taking this flag. -/
abbrev ShaderNull := Bool

/-- Trigonometric structure of the scalar type, standing for the C math
library used by glm: cosine, sine, and the constant pi. -/
structure RealOps (α : Type) where
  cos : α → α
  sin : α → α
  pi : α

/-- glm::radians: degrees times pi over 180. -/
def glmRadians {α : Type} [Field α] (ops : RealOps α) (degrees : α) : α :=
  degrees * ops.pi / 180

/-- glm::scale(v): the homogeneous scaling matrix. -/
def glmScale {α : Type} [Field α] (v : Vec3 α) : Mat4 α :=
  !![v.1, 0, 0, 0;
     0, v.2.1, 0, 0;
     0, 0, v.2.2, 0;
     0, 0, 0, 1]

/-- glm::translate(p): the homogeneous translation matrix. -/
def glmTranslate {α : Type} [Field α] (p : Vec3 α) : Mat4 α :=
  !![1, 0, 0, p.1;
     0, 1, 0, p.2.1;
     0, 0, 1, p.2.2;
     0, 0, 0, 1]

/-- glm::rotate(angle, axis): the Rodrigues rotation matrix exactly as
glm builds it (entry [c][r] of glm's column-major matrix is our row r,
column c).  glm normalizes the axis; SceneManager only ever passes the
unit axes (1,0,0), (0,1,0) and (0,0,1), for which normalization is the
identity, so the model takes the axis as given. -/
def glmRotate {α : Type} [Field α] (ops : RealOps α) (angle : α) (axis : Vec3 α) : Mat4 α :=
  let c := ops.cos angle
  let s := ops.sin angle
  let ax := axis.1
  let ay := axis.2.1
  let az := axis.2.2
  let tx := (1 - c) * ax
  let ty := (1 - c) * ay
  let tz := (1 - c) * az
  !![c + tx * ax, ty * ax - s * az, tz * ax + s * ay, 0;
     tx * ay + s * az, c + ty * ay, tz * ay - s * ax, 0;
     tx * az - s * ay, ty * az + s * ax, c + tz * az, 0;
     0, 0, 0, 1]

/-- The standard rotation about the X axis with cosine c and sine v, in
homogeneous coordinates; this is the form the spec means by "rotation about
the corresponding coordinate axis". -/
def rotationAboutX {α : Type} [Field α] (c v : α) : Mat4 α :=
  !![1, 0, 0, 0;
     0, c, -v, 0;
     0, v, c, 0;
     0, 0, 0, 1]

/-- The standard rotation about the Y axis with cosine c and sine v. -/
def rotationAboutY {α : Type} [Field α] (c v : α) : Mat4 α :=
  !![c, 0, v, 0;
     0, 1, 0, 0;
     -v, 0, c, 0;
     0, 0, 0, 1]

/-- The standard rotation about the Z axis with cosine c and sine v. -/
def rotationAboutZ {α : Type} [Field α] (c v : α) : Mat4 α :=
  !![c, -v, 0, 0;
     v, c, 0, 0;
     0, 0, 1, 0;
     0, 0, 0, 1]

/-- SceneManager::SetTransformations, following the source line by line:
build the scale, per-axis rotation (degrees converted to radians) and
translation matrices, combine them as
translation * rotationZ * rotationY * rotationX * scale, and set the
uniform g_ModelName = "model" when the shader manager is non-null.
Returns the resulting state and the emitted shader calls. -/
def setTransformations {α : Type} [Field α] (ops : RealOps α) (isNull : ShaderNull)
    (scaleXYZ : Vec3 α) (XrotationDegrees YrotationDegrees ZrotationDegrees : α)
    (positionXYZ : Vec3 α) (s : SceneState) : SceneState × List (ShaderCall α) :=
  let scale := glmScale scaleXYZ
  let rotationX := glmRotate ops (glmRadians ops XrotationDegrees) (1, 0, 0)
  let rotationY := glmRotate ops (glmRadians ops YrotationDegrees) (0, 1, 0)
  let rotationZ := glmRotate ops (glmRadians ops ZrotationDegrees) (0, 0, 1)
  let translation := glmTranslate positionXYZ
  let modelView := translation * rotationZ * rotationY * rotationX * scale
  if isNull then (s, []) else (s, [ShaderCall.setMat4Value "model" modelView])

/-- SceneManager::SetShaderColor: when the shader manager is non-null, set
g_UseTextureName = "bUseTexture" to false (int 0) and g_ColorValueName =
"objectColor" to the given RGBA color. -/
def setShaderColor (isNull : ShaderNull)
    (redColorValue greenColorValue blueColorValue alphaValue : ℚ)
    (s : SceneState) : SceneState × List (ShaderCall ℚ) :=
  if isNull then (s, [])
  else
    (s, [ShaderCall.setIntValue "bUseTexture" 0,
         ShaderCall.setVec4Value "objectColor"
           (redColorValue, greenColorValue, blueColorValue, alphaValue)])

/-- SceneManager::SetShaderTexture: when the shader manager is non-null,
set "bUseTexture" to true (int 1), look up the slot for the tag with
FindTextureSlot, and pass it to setSampler2DValue as "objectTexture". -/
def setShaderTexture (isNull : ShaderNull) (textureTag : String)
    (s : SceneState) : SceneState × List (ShaderCall ℚ) :=
  if isNull then (s, [])
  else
    (s, [ShaderCall.setIntValue "bUseTexture" 1,
         ShaderCall.setSampler2DValue "objectTexture" (findTextureSlot s textureTag)])

/-- SceneManager::SetTextureUVScale: when the shader manager is non-null,
set the "UVscale" uniform to (u, v). -/
def setTextureUVScale (isNull : ShaderNull) (u v : ℚ)
    (s : SceneState) : SceneState × List (ShaderCall ℚ) :=
  if isNull then (s, [])
  else (s, [ShaderCall.setVec2Value "UVscale" (u, v)])

/-- SceneManager::SetShaderMaterial: when the material list is non-empty,
look the tag up with FindMaterial (passing a default-constructed
OBJECT_MATERIAL as out-parameter) and, on a true return, set the five
material uniforms from the returned out-parameter.  Note the shader
manager is dereferenced without a null check here. -/
def setShaderMaterial (defaultMaterial : OBJECT_MATERIAL) (materialTag : String)
    (s : SceneState) : SceneState × List (ShaderCall ℚ) :=
  if s.m_objectMaterials.length > 0 then
    let found := findMaterial s materialTag defaultMaterial
    if found.1 = true then
      (s, [ShaderCall.setVec3Value "material.ambientColor" found.2.ambientColor,
           ShaderCall.setFloatValue "material.ambientStrength" found.2.ambientStrength,
           ShaderCall.setVec3Value "material.diffuseColor" found.2.diffuseColor,
           ShaderCall.setVec3Value "material.specularColor" found.2.specularColor,
           ShaderCall.setFloatValue "material.shininess" found.2.shininess])
    else (s, [])
  else (s, [])

/-- The blackmetal material constant from DefineObjectMaterials. -/
def blackmetalMaterial : OBJECT_MATERIAL :=
  ⟨(0.5, 0.5, 0.5), 0.5, (0.2, 0.2, 0.2), (0.5, 0.5, 0.5), 128, "blackmetal"⟩

/-- The carbonfiber material constant from DefineObjectMaterials. -/
def carbonfiberMaterial : OBJECT_MATERIAL :=
  ⟨(0.5, 0.5, 0.5), 0.4, (0.4, 0.4, 0.4), (0.8, 0.8, 0.8), 0.5, "carbonfiber"⟩

/-- The metal material constant from DefineObjectMaterials. -/
def metalMaterial : OBJECT_MATERIAL :=
  ⟨(0.8, 0.8, 0.8), 0.8, (0.8, 0.8, 0.8), (1, 1, 1), 100, "metal"⟩

/-- The greyplastic material constant from DefineObjectMaterials. -/
def greyplasticMaterial : OBJECT_MATERIAL :=
  ⟨(1, 1, 1), 0.8, (1, 1, 1), (1, 1, 1), 65, "greyplastic"⟩

/-- The clay material constant from DefineObjectMaterials. -/
def clayMaterial : OBJECT_MATERIAL :=
  ⟨(0.2, 0.2, 0.3), 0.3, (0.4, 0.4, 0.5), (0.2, 0.2, 0.4), 0.5, "clay"⟩

/-- SceneManager::DefineObjectMaterials: push_back the five hand-authored
material constants, in order, onto m_objectMaterials. -/
def defineObjectMaterials (s : SceneState) : SceneState :=
  let s1 := { s with m_objectMaterials := s.m_objectMaterials ++ [blackmetalMaterial] }
  let s2 := { s1 with m_objectMaterials := s1.m_objectMaterials ++ [carbonfiberMaterial] }
  let s3 := { s2 with m_objectMaterials := s2.m_objectMaterials ++ [metalMaterial] }
  let s4 := { s3 with m_objectMaterials := s3.m_objectMaterials ++ [greyplasticMaterial] }
  { s4 with m_objectMaterials := s4.m_objectMaterials ++ [clayMaterial] }

/-- SceneManager::SetupSceneLights: set the four hardcoded light-source
uniform groups and finally enable "bUseLighting".  The method reads no
SceneManager state and mutates none; the shader manager is dereferenced
without a null check. -/
def setupSceneLights (s : SceneState) : SceneState × List (ShaderCall ℚ) :=
  (s,
   [ShaderCall.setVec3Value "lightSources[0].position" (5, 5, 5),
    ShaderCall.setVec3Value "lightSources[0].ambientColor" (0.01, 0.01, 0.01),
    ShaderCall.setVec3Value "lightSources[0].diffuseColor" (1, 0.4, 0.4),
    ShaderCall.setVec3Value "lightSources[0].specularColor" (0, 0, 0),
    ShaderCall.setFloatValue "lightSources[0].focalStrength" 32,
    ShaderCall.setFloatValue "lightSources[0].specularIntensity" 0.01,
    ShaderCall.setVec3Value "lightSources[1].position" (-3, 5, 5),
    ShaderCall.setVec3Value "lightSources[1].ambientColor" (1, 0.01, 0.01),
    ShaderCall.setVec3Value "lightSources[1].diffuseColor" (0.4, 0.4, 0.4),
    ShaderCall.setVec3Value "lightSources[1].specularColor" (0, 0, 0),
    ShaderCall.setFloatValue "lightSources[1].focalStrength" 32,
    ShaderCall.setFloatValue "lightSources[1].specularIntensity" 0.01,
    ShaderCall.setVec3Value "lightSources[2].position" (1.6, 5, 1),
    ShaderCall.setVec3Value "lightSources[2].ambientColor" (0.01, 0.01, 0.01),
    ShaderCall.setVec3Value "lightSources[2].diffuseColor" (0.3, 0.3, 0.3),
    ShaderCall.setVec3Value "lightSources[2].specularColor" (0.3, 0.3, 0.3),
    ShaderCall.setFloatValue "lightSources[2].focalStrength" 12,
    ShaderCall.setFloatValue "lightSources[2].specularIntensity" 0.1,
    ShaderCall.setVec3Value "lightSources[3].position" (4, 5, -5),
    ShaderCall.setVec3Value "lightSources[3].ambientColor" (0.01, 0.01, 0.01),
    ShaderCall.setVec3Value "lightSources[3].diffuseColor" (0.3, 0.3, 0.3),
    ShaderCall.setVec3Value "lightSources[3].specularColor" (0.3, 0.3, 0.3),
    ShaderCall.setFloatValue "lightSources[3].focalStrength" 12,
    ShaderCall.setFloatValue "lightSources[3].specularIntensity" 0.1,
    ShaderCall.setBoolValue "bUseLighting" true])

/-- The environment LoadSceneTextures runs against: the stbi_load result
for each filename, and the texture names glGenTextures hands out on the
n-th successful load of the run. -/
structure TextureEnv where
  stbiLoad : String → Option ImageInfo
  genName : Nat → Nat

/-- SceneManager::LoadSceneTextures: four CreateGLTexture calls (their bool
results are assigned to a local and ignored) followed by BindGLTextures.
Returns the resulting state and the GL calls BindGLTextures emits. -/
def loadSceneTextures (env : TextureEnv) (s : SceneState) : SceneState × List GLCall :=
  let s1 := (createGLTexture (env.stbiLoad "textures/blackmetal.jpg")
              (env.genName 0) "blackmetal" s).2
  let s2 := (createGLTexture (env.stbiLoad "textures/carbonfiber.png")
              (env.genName 1) "carbonfiber" s1).2
  let s3 := (createGLTexture (env.stbiLoad "textures/metal.jpg")
              (env.genName 2) "metal" s2).2
  let s4 := (createGLTexture (env.stbiLoad "textures/greyplastic.jpg")
              (env.genName 3) "greyplastic" s3).2
  (s4, bindGLTextures s4)

/-- SceneManager::PrepareScene mutates state through DefineObjectMaterials
and LoadSceneTextures (SetupSceneLights and the mesh loads touch no
SceneManager member). -/
def prepareScene (env : TextureEnv) (s : SceneState) : SceneState :=
  (loadSceneTextures env ((setupSceneLights (defineObjectMaterials s)).1)).1

/-- The four basic mesh shapes RenderScene draws through ShapeMeshes. -/
inductive Shape where
  | plane
  | cylinder
  | sphere
  | torus
deriving DecidableEq, Repr

/-- One statement of the RenderScene body, at the level of the SceneManager
helper methods it calls and the ShapeMeshes draw calls it issues. -/
inductive RenderCall where
  | setTransformations (scaleXYZ : Vec3 ℚ)
      (XrotationDegrees YrotationDegrees ZrotationDegrees : ℚ) (positionXYZ : Vec3 ℚ)
  | setShaderColor (r g b a : ℚ)
  | setTextureUVScale (u v : ℚ)
  | setShaderTexture (textureTag : String)
  | setShaderMaterial (materialTag : String)
  | draw (shape : Shape)
deriving DecidableEq, Repr

/-- SceneManager::RenderScene transcribed statement by statement.  The
local scale/rotation/position variables are constant-folded: the backdrop
block reuses the floor scale (20, 1, 10) because its scale assignment is
commented out in the source.  RenderScene reads the transform constants
from local variables only, mutates no SceneManager member, and issues the
calls below unconditionally. -/
def renderScene : List RenderCall :=
  [ -- floor plane
   RenderCall.setTransformations (20, 1, 10) 0 0 0 (0, 0, 0),
   RenderCall.setShaderColor 1 1 1 1,
   RenderCall.setTextureUVScale 4 4,
   RenderCall.setShaderTexture "greyplastic",
   RenderCall.setShaderMaterial "clay",
   RenderCall.draw Shape.plane,
   -- backdrop plane (scale carried over from the floor)
   RenderCall.setTransformations (20, 1, 10) 90 0 0 (0, 10, -10),
   RenderCall.setShaderColor 1 1 1 1,
   RenderCall.setTextureUVScale 4 4,
   RenderCall.setShaderTexture "greyplastic",
   RenderCall.setShaderMaterial "clay",
   RenderCall.draw Shape.plane,
   -- base cylinder
   RenderCall.setTransformations (1, 0.2, 1) 0 0 0 (0, 0, 0),
   RenderCall.setShaderColor 0 0 0 1,
   RenderCall.setTextureUVScale 0.2 0.2,
   RenderCall.setShaderTexture "carbonfiber",
   RenderCall.setShaderMaterial "carbonfiber",
   RenderCall.draw Shape.cylinder,
   -- cylinder extension
   RenderCall.setTransformations (0.1, 4.7, 0.1) 0 0 0 (0, 0.2, -0.8),
   RenderCall.setShaderColor 0 0 0 1,
   RenderCall.setTextureUVScale 2 8,
   RenderCall.setShaderTexture "blackmetal",
   RenderCall.setShaderMaterial "blackmetal",
   RenderCall.draw Shape.cylinder,
   -- cylinder lock
   RenderCall.setTransformations (0.2, 1.2, 0.2) 0 0 0 (0, 2.2, -0.8),
   RenderCall.setShaderColor 0 0 0 1,
   RenderCall.setTextureUVScale 0.6 0.6,
   RenderCall.setShaderTexture "carbonfiber",
   RenderCall.setShaderMaterial "carbonfiber",
   RenderCall.draw Shape.cylinder,
   -- cylinder lock (upper)
   RenderCall.setTransformations (0.2, 0.1, 0.2) 0 0 0 (0, 4.6, -0.8),
   RenderCall.setShaderColor 0 0 0 1,
   RenderCall.setTextureUVScale 0.6 0.6,
   RenderCall.setShaderTexture "carbonfiber",
   RenderCall.setShaderMaterial "carbonfiber",
   RenderCall.draw Shape.cylinder,
   -- cylinder joint
   RenderCall.setTransformations (0.2, 0.3, 0.2) 0 0 0 (0, 4.78, -0.8),
   RenderCall.setShaderColor 0 0 0 1,
   RenderCall.setTextureUVScale 0.6 0.6,
   RenderCall.setShaderTexture "carbonfiber",
   RenderCall.setShaderMaterial "carbonfiber",
   RenderCall.draw Shape.cylinder,
   -- sphere joint
   RenderCall.setTransformations (0.1, 0.1, 0.1) 0 0 0 (0, 5.1, -0.8),
   RenderCall.setShaderColor 0.8 0.8 0.8 1,
   RenderCall.setTextureUVScale 2 2,
   RenderCall.setShaderTexture "metal",
   RenderCall.setShaderMaterial "metal",
   RenderCall.draw Shape.sphere,
   -- cylinder off ball joint
   RenderCall.setTransformations (0.03, 0.11, 0.03) 0 0 45 (-0.04, 5.15, -0.8),
   RenderCall.setShaderColor 0.8 0.8 0.8 1,
   RenderCall.setTextureUVScale 2 2,
   RenderCall.setShaderTexture "metal",
   RenderCall.setShaderMaterial "metal",
   RenderCall.draw Shape.cylinder,
   -- cylinder off torus
   RenderCall.setTransformations (0.1, 0.1, 0.1) 0 0 45 (-0.1, 5.21, -0.8),
   RenderCall.setShaderColor 0 0 0 1,
   RenderCall.setTextureUVScale 0.6 0.6,
   RenderCall.setShaderTexture "carbonfiber",
   RenderCall.setShaderMaterial "carbonfiber",
   RenderCall.draw Shape.cylinder,
   -- torus light
   RenderCall.setTransformations (1.1, 1.1, 1.1) 0 0 0 (-1.1, 6.2, -0.8),
   RenderCall.setShaderColor 0.8 0.8 0.8 1,
   RenderCall.setTextureUVScale 4 4,
   RenderCall.setShaderTexture "greyplastic",
   RenderCall.setShaderMaterial "greyplastic",
   RenderCall.draw Shape.torus,
   -- torus light back
   RenderCall.setTransformations (1, 1, 1) 0 0 0 (-1.1, 6.2, -0.9),
   RenderCall.setShaderColor 0 0 0 1,
   RenderCall.setTextureUVScale 0.6 0.6,
   RenderCall.setShaderTexture "blackmetal",
   RenderCall.setShaderMaterial "blackmetal",
   RenderCall.draw Shape.torus]

/-- The shapes drawn by RenderScene, in order of the draw calls. -/
def renderSceneDraws : List Shape :=
  renderScene.filterMap fun call =>
    match call with
    | RenderCall.draw shape => some shape
    | _ => none

/-- Whether six consecutive RenderScene statements form one object block:
configure transform, color, UV scale, texture and material, then draw. -/
def isObjectBlock : List RenderCall → Bool
  | [RenderCall.setTransformations _ _ _ _ _,
     RenderCall.setShaderColor _ _ _ _,
     RenderCall.setTextureUVScale _ _,
     RenderCall.setShaderTexture _,
     RenderCall.setShaderMaterial _,
     RenderCall.draw _] => true
  | _ => false

/-- Every public SceneManager operation, abstracted to its effect on the
SceneManager member state.  Operations that only emit GL or shader calls
(or that read state) leave the state as the code leaves it. -/
inductive SceneOp where
  | opCreateGLTexture (image : Option ImageInfo) (textureID : Nat) (tag : String)
  | opBindGLTextures
  | opDestroyGLTextures (gen : Nat → Nat)
  | opFindTextureID (tag : String)
  | opFindTextureSlot (tag : String)
  | opFindMaterial (tag : String) (material : OBJECT_MATERIAL)
  | opSetTransformations (ops : RealOps ℚ) (isNull : ShaderNull) (scaleXYZ : Vec3 ℚ)
      (xr yr zr : ℚ) (positionXYZ : Vec3 ℚ)
  | opSetShaderColor (isNull : ShaderNull) (r g b a : ℚ)
  | opSetShaderTexture (isNull : ShaderNull) (textureTag : String)
  | opSetTextureUVScale (isNull : ShaderNull) (u v : ℚ)
  | opSetShaderMaterial (defaultMaterial : OBJECT_MATERIAL) (materialTag : String)
  | opDefineObjectMaterials
  | opSetupSceneLights
  | opLoadSceneTextures (env : TextureEnv)
  | opPrepareScene (env : TextureEnv)
  | opRenderScene

/-- The state transition of each SceneManager operation. -/
def applyOp (op : SceneOp) (s : SceneState) : SceneState :=
  match op with
  | SceneOp.opCreateGLTexture image textureID tag => (createGLTexture image textureID tag s).2
  | SceneOp.opBindGLTextures => s
  | SceneOp.opDestroyGLTextures gen => (destroyGLTextures gen s).1
  | SceneOp.opFindTextureID _ => s
  | SceneOp.opFindTextureSlot _ => s
  | SceneOp.opFindMaterial _ _ => s
  | SceneOp.opSetTransformations ops isNull scaleXYZ xr yr zr positionXYZ =>
      (setTransformations ops isNull scaleXYZ xr yr zr positionXYZ s).1
  | SceneOp.opSetShaderColor isNull r g b a => (setShaderColor isNull r g b a s).1
  | SceneOp.opSetShaderTexture isNull textureTag => (setShaderTexture isNull textureTag s).1
  | SceneOp.opSetTextureUVScale isNull u v => (setTextureUVScale isNull u v s).1
  | SceneOp.opSetShaderMaterial defaultMaterial materialTag =>
      (setShaderMaterial defaultMaterial materialTag s).1
  | SceneOp.opDefineObjectMaterials => defineObjectMaterials s
  | SceneOp.opSetupSceneLights => (setupSceneLights s).1
  | SceneOp.opLoadSceneTextures env => (loadSceneTextures env s).1
  | SceneOp.opPrepareScene env => prepareScene env s
  | SceneOp.opRenderScene => s

/-! ## Helper lemmas -/

/-- A CreateGLTexture call appends either one entry or none. -/
lemma createGLTexture_textureIDs_cases (image : Option ImageInfo) (textureID : Nat)
    (tag : String) (s : SceneState) :
    (createGLTexture image textureID tag s).2.m_textureIDs
        = s.m_textureIDs ++ [⟨textureID, tag⟩]
    ∨ (createGLTexture image textureID tag s).2 = s := by
  match image with
  | none => exact Or.inr rfl
  | some info =>
      by_cases h3 : info.colorChannels = 3
      · exact Or.inl (by simp [createGLTexture, h3])
      · by_cases h4 : info.colorChannels = 4
        · exact Or.inl (by simp [createGLTexture, h3, h4])
        · exact Or.inr (by simp [createGLTexture, h3, h4])

/-- A CreateGLTexture call grows the registry by at most one entry. -/
lemma m_loadedTextures_createGLTexture_le (image : Option ImageInfo) (textureID : Nat)
    (tag : String) (s : SceneState) :
    m_loadedTextures (createGLTexture image textureID tag s).2 ≤ m_loadedTextures s + 1 := by
  rcases createGLTexture_textureIDs_cases image textureID tag s with h | h
  · simp [m_loadedTextures, h]
  · simp [m_loadedTextures, h]

/-- A CreateGLTexture call never shrinks the registry. -/
lemma m_loadedTextures_le_createGLTexture (image : Option ImageInfo) (textureID : Nat)
    (tag : String) (s : SceneState) :
    m_loadedTextures s ≤ m_loadedTextures (createGLTexture image textureID tag s).2 := by
  rcases createGLTexture_textureIDs_cases image textureID tag s with h | h
  · simp [m_loadedTextures, h]
  · simp [m_loadedTextures, h]

/-- Running a sequence of CreateGLTexture calls grows the registry by at
most the number of calls. -/
lemma runCreates_loadedTextures_le (calls : List (Option ImageInfo × Nat × String)) :
    ∀ s : SceneState,
      m_loadedTextures (runCreates calls s) ≤ m_loadedTextures s + calls.length := by
  induction calls with
  | nil => intro s; simp [runCreates]
  | cons c rest ih =>
      intro s
      obtain ⟨image, textureID, tag⟩ := c
      have h1 := ih (createGLTexture image textureID tag s).2
      have h2 := m_loadedTextures_createGLTexture_le image textureID tag s
      simp only [runCreates, List.length_cons]
      omega

/-- FindTextureID returns the initial -1 exactly when no entry matches. -/
lemma findTextureIDLoop_eq_neg_one_iff (l : List TEXTURE_ID) (tag : String) :
    findTextureIDLoop l tag = -1 ↔ ∀ e ∈ l, e.tag ≠ tag := by
  induction l with
  | nil => simp [findTextureIDLoop]
  | cons e rest ih =>
      by_cases h : e.tag = tag
      · rw [findTextureIDLoop, if_pos h]
        constructor
        · intro hid; exfalso; omega
        · intro hall; exact absurd h (hall e (List.mem_cons_self e rest))
      · rw [findTextureIDLoop, if_neg h, ih]
        constructor
        · intro hrest f hf
          rcases List.mem_cons.mp hf with rfl | hmem
          · exact h
          · exact hrest f hmem
        · intro hall f hf
          exact hall f (List.mem_cons_of_mem _ hf)

/-- FindTextureSlot returns the initial -1 exactly when no entry matches,
for any running index. -/
lemma findTextureSlotLoop_eq_neg_one_iff (l : List TEXTURE_ID) (tag : String) :
    ∀ n : Nat, findTextureSlotLoop l tag n = -1 ↔ ∀ e ∈ l, e.tag ≠ tag := by
  induction l with
  | nil => intro n; simp [findTextureSlotLoop]
  | cons e rest ih =>
      intro n
      by_cases h : e.tag = tag
      · rw [findTextureSlotLoop, if_pos h]
        constructor
        · intro hn; exfalso; omega
        · intro hall; exact absurd h (hall e (List.mem_cons_self e rest))
      · rw [findTextureSlotLoop, if_neg h, ih]
        constructor
        · intro hrest f hf
          rcases List.mem_cons.mp hf with rfl | hmem
          · exact h
          · exact hrest f hmem
        · intro hall f hf
          exact hall f (List.mem_cons_of_mem _ hf)

/-- The scan in FindTextureID stops at the first matching entry. -/
lemma findTextureIDLoop_first_match (l : List TEXTURE_ID) (tag : String) :
    ∀ (i : Nat) (hi : i < l.length),
      (l.get ⟨i, hi⟩).tag = tag →
      (∀ (j : Nat) (hj : j < l.length), j < i → (l.get ⟨j, hj⟩).tag ≠ tag) →
      findTextureIDLoop l tag = ((l.get ⟨i, hi⟩).ID : Int) := by
  induction l with
  | nil => intro i hi; exact absurd hi (Nat.not_lt_zero i)
  | cons e rest ih =>
      intro i hi hmatch hbefore
      cases i with
      | zero =>
          have hm : e.tag = tag := hmatch
          rw [findTextureIDLoop, if_pos hm]
          rfl
      | succ k =>
          have hne : e.tag ≠ tag := hbefore 0 (Nat.succ_pos _) (Nat.succ_pos _)
          have hk : k < rest.length := Nat.lt_of_succ_lt_succ hi
          have hm : (rest.get ⟨k, hk⟩).tag = tag := hmatch
          have hb : ∀ (j : Nat) (hj : j < rest.length), j < k →
              (rest.get ⟨j, hj⟩).tag ≠ tag := by
            intro j hj hlt
            exact hbefore (j + 1) (Nat.succ_lt_succ hj) (Nat.succ_lt_succ hlt)
          rw [findTextureIDLoop, if_neg hne]
          exact ih k hk hm hb

/-- The scan in FindTextureSlot stops at the first matching entry and
returns the running index there. -/
lemma findTextureSlotLoop_first_match (l : List TEXTURE_ID) (tag : String) :
    ∀ (n i : Nat) (hi : i < l.length),
      (l.get ⟨i, hi⟩).tag = tag →
      (∀ (j : Nat) (hj : j < l.length), j < i → (l.get ⟨j, hj⟩).tag ≠ tag) →
      findTextureSlotLoop l tag n = ((n + i : Nat) : Int) := by
  induction l with
  | nil => intro n i hi; exact absurd hi (Nat.not_lt_zero i)
  | cons e rest ih =>
      intro n i hi hmatch hbefore
      cases i with
      | zero =>
          have hm : e.tag = tag := hmatch
          rw [findTextureSlotLoop, if_pos hm]
          norm_num
      | succ k =>
          have hne : e.tag ≠ tag := hbefore 0 (Nat.succ_pos _) (Nat.succ_pos _)
          have hk : k < rest.length := Nat.lt_of_succ_lt_succ hi
          have hm : (rest.get ⟨k, hk⟩).tag = tag := hmatch
          have hb : ∀ (j : Nat) (hj : j < rest.length), j < k →
              (rest.get ⟨j, hj⟩).tag ≠ tag := by
            intro j hj hlt
            exact hbefore (j + 1) (Nat.succ_lt_succ hj) (Nat.succ_lt_succ hlt)
          rw [findTextureSlotLoop, if_neg hne, ih (n + 1) k hk hm hb]
          congr 1
          omega

/-- The FindMaterial scan leaves the out-parameter untouched when no entry
matches. -/
lemma findMaterialLoop_of_no_match (l : List OBJECT_MATERIAL) (tag : String)
    (material : OBJECT_MATERIAL) (h : ∀ e ∈ l, e.tag ≠ tag) :
    findMaterialLoop l tag material = material := by
  induction l with
  | nil => rfl
  | cons e rest ih =>
      rw [findMaterialLoop, if_neg (h e (List.mem_cons_self e rest))]
      exact ih fun f hf => h f (List.mem_cons_of_mem _ hf)

/-- The FindMaterial scan copies the value fields of the first matching
entry into the out-parameter. -/
lemma findMaterialLoop_first_match (l : List OBJECT_MATERIAL) (tag : String)
    (material : OBJECT_MATERIAL) :
    ∀ (i : Nat) (hi : i < l.length),
      (l.get ⟨i, hi⟩).tag = tag →
      (∀ (j : Nat) (hj : j < l.length), j < i → (l.get ⟨j, hj⟩).tag ≠ tag) →
      findMaterialLoop l tag material = copyMaterialValues (l.get ⟨i, hi⟩) material := by
  induction l with
  | nil => intro i hi; exact absurd hi (Nat.not_lt_zero i)
  | cons e rest ih =>
      intro i hi hmatch hbefore
      cases i with
      | zero =>
          have hm : e.tag = tag := hmatch
          rw [findMaterialLoop, if_pos hm]
          rfl
      | succ k =>
          have hne : e.tag ≠ tag := hbefore 0 (Nat.succ_pos _) (Nat.succ_pos _)
          have hk : k < rest.length := Nat.lt_of_succ_lt_succ hi
          have hm : (rest.get ⟨k, hk⟩).tag = tag := hmatch
          have hb : ∀ (j : Nat) (hj : j < rest.length), j < k →
              (rest.get ⟨j, hj⟩).tag ≠ tag := by
            intro j hj hlt
            exact hbefore (j + 1) (Nat.succ_lt_succ hj) (Nat.succ_lt_succ hlt)
          rw [findMaterialLoop, if_neg hne]
          exact ih k hk hm hb

/-- The rewritten IDs of DestroyGLTextures keep every tag in place. -/
lemma regenIDs_map_tag (gen : Nat → Nat) :
    ∀ (i : Nat) (l : List TEXTURE_ID),
      (regenIDs gen i l).map TEXTURE_ID.tag = l.map TEXTURE_ID.tag := by
  intro i l
  induction l generalizing i with
  | nil => rfl
  | cons e rest ih => simp [regenIDs, ih]

/-- The rewritten IDs of DestroyGLTextures keep the registry length. -/
lemma regenIDs_length (gen : Nat → Nat) :
    ∀ (i : Nat) (l : List TEXTURE_ID), (regenIDs gen i l).length = l.length := by
  intro i l
  induction l generalizing i with
  | nil => rfl
  | cons e rest ih => simp [regenIDs, ih]

/-- Each CreateGLTexture call only ever appends to the registry. -/
lemma createGLTexture_appends (image : Option ImageInfo) (textureID : Nat)
    (tag : String) (s : SceneState) :
    ∃ app, (createGLTexture image textureID tag s).2.m_textureIDs
        = s.m_textureIDs ++ app := by
  rcases createGLTexture_textureIDs_cases image textureID tag s with h | h
  · exact ⟨[⟨textureID, tag⟩], h⟩
  · exact ⟨[], by simp [h]⟩

/-- A successful CreateGLTexture call produces exactly the input state with
the tagged entry appended. -/
lemma createGLTexture_success_state (info : ImageInfo) (textureID : Nat)
    (tag : String) (s : SceneState)
    (h : info.colorChannels = 3 ∨ info.colorChannels = 4) :
    (createGLTexture (some info) textureID tag s).2
      = { s with m_textureIDs := s.m_textureIDs ++ [⟨textureID, tag⟩] } := by
  rcases h with h | h <;> simp [createGLTexture, h]

/-- LoadSceneTextures only ever appends to the texture registry. -/
lemma loadSceneTextures_appends (env : TextureEnv) (s : SceneState) :
    ∃ app, (loadSceneTextures env s).1.m_textureIDs = s.m_textureIDs ++ app := by
  obtain ⟨a1, h1⟩ := createGLTexture_appends
    (env.stbiLoad "textures/blackmetal.jpg") (env.genName 0) "blackmetal" s
  obtain ⟨a2, h2⟩ := createGLTexture_appends
    (env.stbiLoad "textures/carbonfiber.png") (env.genName 1) "carbonfiber"
    ((createGLTexture (env.stbiLoad "textures/blackmetal.jpg") (env.genName 0)
      "blackmetal" s).2)
  obtain ⟨a3, h3⟩ := createGLTexture_appends
    (env.stbiLoad "textures/metal.jpg") (env.genName 2) "metal"
    ((createGLTexture (env.stbiLoad "textures/carbonfiber.png") (env.genName 1)
      "carbonfiber"
      ((createGLTexture (env.stbiLoad "textures/blackmetal.jpg") (env.genName 0)
        "blackmetal" s).2)).2)
  obtain ⟨a4, h4⟩ := createGLTexture_appends
    (env.stbiLoad "textures/greyplastic.jpg") (env.genName 3) "greyplastic"
    ((createGLTexture (env.stbiLoad "textures/metal.jpg") (env.genName 2) "metal"
      ((createGLTexture (env.stbiLoad "textures/carbonfiber.png") (env.genName 1)
        "carbonfiber"
        ((createGLTexture (env.stbiLoad "textures/blackmetal.jpg") (env.genName 0)
          "blackmetal" s).2)).2)).2)
  refine ⟨a1 ++ a2 ++ a3 ++ a4, ?_⟩
  show (createGLTexture (env.stbiLoad "textures/greyplastic.jpg") (env.genName 3)
      "greyplastic" _).2.m_textureIDs = _
  rw [h4, h3, h2, h1]
  simp [List.append_assoc]

/-- A registry extension by entries extends the tag list and cannot shrink
the counter. -/
lemma tags_mono_of_append {s t : SceneState}
    (h : ∃ app, t.m_textureIDs = s.m_textureIDs ++ app) :
    ∃ appended, t.m_textureIDs.map TEXTURE_ID.tag
        = s.m_textureIDs.map TEXTURE_ID.tag ++ appended
      ∧ m_loadedTextures s ≤ m_loadedTextures t := by
  obtain ⟨app, happ⟩ := h
  exact ⟨app.map TEXTURE_ID.tag, by simp [happ], by simp [m_loadedTextures, happ]⟩

/-- DefineObjectMaterials does not touch the texture registry. -/
lemma defineObjectMaterials_textureIDs (s : SceneState) :
    (defineObjectMaterials s).m_textureIDs = s.m_textureIDs := rfl

/-- glm's Rodrigues matrix at the unit X axis is the standard X rotation. -/
lemma glmRotate_unitX {α : Type} [Field α] (ops : RealOps α) (angle : α) :
    glmRotate ops angle (1, 0, 0) = rotationAboutX (ops.cos angle) (ops.sin angle) := by
  ext i j
  fin_cases i <;> fin_cases j <;> simp [glmRotate, rotationAboutX]

/-- glm's Rodrigues matrix at the unit Y axis is the standard Y rotation. -/
lemma glmRotate_unitY {α : Type} [Field α] (ops : RealOps α) (angle : α) :
    glmRotate ops angle (0, 1, 0) = rotationAboutY (ops.cos angle) (ops.sin angle) := by
  ext i j
  fin_cases i <;> fin_cases j <;> simp [glmRotate, rotationAboutY]

/-- glm's Rodrigues matrix at the unit Z axis is the standard Z rotation. -/
lemma glmRotate_unitZ {α : Type} [Field α] (ops : RealOps α) (angle : α) :
    glmRotate ops angle (0, 0, 1) = rotationAboutZ (ops.cos angle) (ops.sin angle) := by
  ext i j
  fin_cases i <;> fin_cases j <;> simp [glmRotate, rotationAboutZ]

/-- SetShaderMaterial never changes the SceneManager state. -/
lemma setShaderMaterial_state (defaultMaterial : OBJECT_MATERIAL)
    (materialTag : String) (s : SceneState) :
    (setShaderMaterial defaultMaterial materialTag s).1 = s := by
  simp only [setShaderMaterial]
  split
  · split <;> rfl
  · rfl

/-! ## Claim theorems -/

/-- C4: CreateGLTexture returns true exactly when the image file loads with
3 or 4 color channels; on success it appends exactly one entry carrying the
given tag and increments m_loadedTextures by exactly one; on every failure
it returns false and leaves the SceneManager state (registry entries,
counter and materials) unchanged. -/
theorem createGLTexture_spec (image : Option ImageInfo) (textureID : Nat)
    (tag : String) (s : SceneState) :
    ((createGLTexture image textureID tag s).1 = true ↔
        ∃ info, image = some info ∧ (info.colorChannels = 3 ∨ info.colorChannels = 4))
    ∧ ((createGLTexture image textureID tag s).1 = true →
        (createGLTexture image textureID tag s).2.m_textureIDs
            = s.m_textureIDs ++ [⟨textureID, tag⟩]
        ∧ m_loadedTextures (createGLTexture image textureID tag s).2
            = m_loadedTextures s + 1)
    ∧ ((createGLTexture image textureID tag s).1 = false →
        (createGLTexture image textureID tag s).2 = s) := by
  match image with
  | none =>
      refine ⟨?_, ?_, ?_⟩
      · simp [createGLTexture]
      · intro h; simp [createGLTexture] at h
      · intro _; rfl
  | some info =>
      by_cases h3 : info.colorChannels = 3
      · refine ⟨?_, ?_, ?_⟩
        · simp [createGLTexture, h3]
        · intro _
          exact ⟨by simp [createGLTexture, h3],
                 by simp [createGLTexture, m_loadedTextures, h3]⟩
        · intro h; simp [createGLTexture, h3] at h
      · by_cases h4 : info.colorChannels = 4
        · refine ⟨?_, ?_, ?_⟩
          · simp [createGLTexture, h3, h4]
          · intro _
            exact ⟨by simp [createGLTexture, h3, h4],
                   by simp [createGLTexture, m_loadedTextures, h3, h4]⟩
          · intro h; simp [createGLTexture, h3, h4] at h
        · refine ⟨?_, ?_, ?_⟩
          · simp [createGLTexture, h3, h4]
          · intro h; simp [createGLTexture, h3, h4] at h
          · intro _; simp [createGLTexture, h3, h4]

/-- Witness: a concrete 3-channel load succeeds and appends exactly the
tagged entry. -/
theorem createGLTexture_spec_witness :
    (createGLTexture (some ⟨2, 2, 3⟩) 7 "metal" initialState).2.m_textureIDs
        = initialState.m_textureIDs ++ [⟨7, "metal"⟩]
    ∧ m_loadedTextures (createGLTexture (some ⟨2, 2, 3⟩) 7 "metal" initialState).2
        = m_loadedTextures initialState + 1 :=
  (createGLTexture_spec (some ⟨2, 2, 3⟩) 7 "metal" initialState).2.1 (by decide)

/-- C1 counterexample: seventeen successful CreateGLTexture calls drive
m_loadedTextures to 17, past the 16-entry array capacity; the code performs
no bound check before writing m_textureIDs[m_loadedTextures]. -/
theorem createGLTexture_unbounded_cex :
    m_loadedTextures
        (runCreates (List.replicate 17 (some ⟨1, 1, 3⟩, 1, "t")) initialState) = 17
    ∧ ¬ m_loadedTextures
        (runCreates (List.replicate 17 (some ⟨1, 1, 3⟩, 1, "t")) initialState)
          ≤ TEXTURE_SLOT_CAPACITY := by
  constructor <;> decide

/-- C1 (amended): for every sequence of at most 16 CreateGLTexture calls
starting from the startup (empty) registry, m_loadedTextures stays within
16 and every registration writes within the 16-entry array; the bound is
enforced by the call sites (the program makes four calls), not by a check
inside CreateGLTexture. -/
theorem createGLTexture_bounded_calls
    (calls : List (Option ImageInfo × Nat × String))
    (h : calls.length ≤ TEXTURE_SLOT_CAPACITY) :
    m_loadedTextures (runCreates calls initialState) ≤ TEXTURE_SLOT_CAPACITY
    ∧ ∀ done c rest, calls = done ++ c :: rest →
        createWriteIndex (runCreates done initialState) < TEXTURE_SLOT_CAPACITY := by
  have hcap : TEXTURE_SLOT_CAPACITY = 16 := rfl
  have h0 : m_loadedTextures initialState = 0 := rfl
  constructor
  · have hmon := runCreates_loadedTextures_le calls initialState
    omega
  · intro done c rest hsplit
    have hlen : done.length + (rest.length + 1) = calls.length := by
      rw [hsplit]; simp
    have hmon := runCreates_loadedTextures_le done initialState
    show m_loadedTextures (runCreates done initialState) < TEXTURE_SLOT_CAPACITY
    omega

/-- Witness: sixteen successful calls stay within capacity. -/
theorem createGLTexture_bounded_calls_witness :
    m_loadedTextures
        (runCreates (List.replicate 16 (some ⟨1, 1, 3⟩, 1, "t")) initialState)
      ≤ TEXTURE_SLOT_CAPACITY :=
  (createGLTexture_bounded_calls (List.replicate 16 (some ⟨1, 1, 3⟩, 1, "t"))
    (by decide)).1

/-- C2: at a registry holding one loaded texture object (name 7),
DestroyGLTextures emits a glGenTextures call and no glDeleteTextures call
at all: the loaded texture object is never freed, and its registry slot is
even overwritten with the freshly generated name. -/
theorem destroyGLTextures_no_delete :
    (destroyGLTextures (fun _ => 100) ⟨[⟨7, "metal"⟩], []⟩).2
        = [GLCall.genTextures 1]
    ∧ ((destroyGLTextures (fun _ => 100) ⟨[⟨7, "metal"⟩], []⟩).2.all
        fun c => !isDeleteCall c) = true
    ∧ (destroyGLTextures (fun _ => 100) ⟨[⟨7, "metal"⟩], []⟩).1.m_textureIDs
        = [⟨100, "metal"⟩] := by
  refine ⟨rfl, ?_, rfl⟩
  decide

/-- C5: FindTextureSlot returns the least index whose entry matches the tag
(-1 when none does), FindTextureID returns the ID stored at that same least
index (-1 when none does), and the two return -1 together. -/
theorem findTexture_spec (s : SceneState) (tag : String) :
    ((∀ e ∈ s.m_textureIDs, e.tag ≠ tag) →
        findTextureSlot s tag = -1 ∧ findTextureID s tag = -1)
    ∧ (∀ (i : Nat) (hi : i < s.m_textureIDs.length),
        (s.m_textureIDs.get ⟨i, hi⟩).tag = tag →
        (∀ (j : Nat) (hj : j < s.m_textureIDs.length), j < i →
            (s.m_textureIDs.get ⟨j, hj⟩).tag ≠ tag) →
        findTextureSlot s tag = (i : Int)
        ∧ findTextureID s tag = ((s.m_textureIDs.get ⟨i, hi⟩).ID : Int))
    ∧ (findTextureID s tag = -1 ↔ findTextureSlot s tag = -1) := by
  refine ⟨?_, ?_, ?_⟩
  · intro h
    exact ⟨(findTextureSlotLoop_eq_neg_one_iff s.m_textureIDs tag 0).mpr h,
           (findTextureIDLoop_eq_neg_one_iff s.m_textureIDs tag).mpr h⟩
  · intro i hi hm hb
    constructor
    · have hslot := findTextureSlotLoop_first_match s.m_textureIDs tag 0 i hi hm hb
      simpa using hslot
    · exact findTextureIDLoop_first_match s.m_textureIDs tag i hi hm hb
  · show findTextureIDLoop s.m_textureIDs tag = -1 ↔
        findTextureSlotLoop s.m_textureIDs tag 0 = -1
    rw [findTextureIDLoop_eq_neg_one_iff, findTextureSlotLoop_eq_neg_one_iff]

/-- Witness: in a two-entry registry the first matching slot and its stored
ID are returned. -/
theorem findTexture_spec_witness :
    findTextureSlot ⟨[⟨5, "a"⟩, ⟨9, "b"⟩], []⟩ "a" = (0 : Int)
    ∧ findTextureID ⟨[⟨5, "a"⟩, ⟨9, "b"⟩], []⟩ "a" = ((5 : Nat) : Int) :=
  (findTexture_spec ⟨[⟨5, "a"⟩, ⟨9, "b"⟩], []⟩ "a").2.1 0 (by decide) (by decide)
    (fun j _ hlt => absurd hlt (Nat.not_lt_zero j))

/-- C3: FindMaterial returns false exactly when the material list is empty;
on a non-empty list it returns true even when no tag matches, leaving the
out-parameter untouched in that case; and when a match exists it copies the
ambientColor, ambientStrength, diffuseColor, specularColor and shininess of
the first matching entry into the out-parameter. -/
theorem findMaterial_spec (s : SceneState) (tag : String) (material : OBJECT_MATERIAL) :
    ((findMaterial s tag material).1 = false ↔ s.m_objectMaterials = [])
    ∧ (s.m_objectMaterials ≠ [] → (∀ e ∈ s.m_objectMaterials, e.tag ≠ tag) →
        findMaterial s tag material = (true, material))
    ∧ (∀ (i : Nat) (hi : i < s.m_objectMaterials.length),
        (s.m_objectMaterials.get ⟨i, hi⟩).tag = tag →
        (∀ (j : Nat) (hj : j < s.m_objectMaterials.length), j < i →
            (s.m_objectMaterials.get ⟨j, hj⟩).tag ≠ tag) →
        findMaterial s tag material
          = (true, copyMaterialValues (s.m_objectMaterials.get ⟨i, hi⟩) material)) := by
  refine ⟨?_, ?_, ?_⟩
  · by_cases h : s.m_objectMaterials = []
    · simp [findMaterial, h]
    · simp [findMaterial, h]
  · intro hne hnomatch
    simp only [findMaterial, if_neg hne]
    rw [findMaterialLoop_of_no_match s.m_objectMaterials tag material hnomatch]
  · intro i hi hm hb
    have hne : s.m_objectMaterials ≠ [] := by
      intro hempty
      rw [hempty] at hi
      exact absurd hi (Nat.not_lt_zero i)
    simp only [findMaterial, if_neg hne]
    rw [findMaterialLoop_first_match s.m_objectMaterials tag material i hi hm hb]

/-- Witness: a non-empty material list with no matching tag returns true
and the untouched out-parameter. -/
theorem findMaterial_spec_witness :
    findMaterial ⟨[], [blackmetalMaterial]⟩ "nomatch" clayMaterial
      = (true, clayMaterial) :=
  (findMaterial_spec ⟨[], [blackmetalMaterial]⟩ "nomatch" clayMaterial).2.1
    (by decide) (by decide)

/-- C6: RenderScene issues exactly 12 draw calls in the fixed order plane,
plane, cylinder, cylinder, cylinder, cylinder, cylinder, sphere, cylinder,
cylinder, torus, torus; its 72 statements decompose into 12 six-statement
blocks, each configuring transform, color, UV scale, texture and material
state before its draw; and the call list is a constant, independent of any
input or prior state. -/
theorem renderScene_fixed_draw_order :
    renderSceneDraws
      = [Shape.plane, Shape.plane, Shape.cylinder, Shape.cylinder, Shape.cylinder,
         Shape.cylinder, Shape.cylinder, Shape.sphere, Shape.cylinder, Shape.cylinder,
         Shape.torus, Shape.torus]
    ∧ renderSceneDraws.length = 12
    ∧ renderScene.length = 72
    ∧ ((List.range 12).all fun k =>
        isObjectBlock ((renderScene.drop (6 * k)).take 6)) = true := by
  refine ⟨?_, ?_, ?_, ?_⟩ <;> decide

/-- C7: under an environment in which the four texture files load with 3 or
4 channels, LoadSceneTextures starting from the startup state registers
exactly the four tags blackmetal, carbonfiber, metal, greyplastic and then
binds each registered texture to its unit; and no SceneManager operation
ever decreases m_loadedTextures or removes a tag from the registry. -/
theorem textures_never_evicted :
    (∀ env : TextureEnv,
      (∀ f ∈ ["textures/blackmetal.jpg", "textures/carbonfiber.png",
              "textures/metal.jpg", "textures/greyplastic.jpg"],
        ∃ info, env.stbiLoad f = some info
          ∧ (info.colorChannels = 3 ∨ info.colorChannels = 4)) →
      (loadSceneTextures env initialState).1.m_textureIDs
          = [⟨env.genName 0, "blackmetal"⟩, ⟨env.genName 1, "carbonfiber"⟩,
             ⟨env.genName 2, "metal"⟩, ⟨env.genName 3, "greyplastic"⟩]
        ∧ (loadSceneTextures env initialState).2
          = [GLCall.activeTexture 0, GLCall.bindTexture (env.genName 0),
             GLCall.activeTexture 1, GLCall.bindTexture (env.genName 1),
             GLCall.activeTexture 2, GLCall.bindTexture (env.genName 2),
             GLCall.activeTexture 3, GLCall.bindTexture (env.genName 3)])
    ∧ (∀ (op : SceneOp) (s : SceneState), ∃ appended,
        (applyOp op s).m_textureIDs.map TEXTURE_ID.tag
            = s.m_textureIDs.map TEXTURE_ID.tag ++ appended
          ∧ m_loadedTextures s ≤ m_loadedTextures (applyOp op s)) := by
  constructor
  · intro env h
    obtain ⟨i1, hi1, hc1⟩ := h "textures/blackmetal.jpg" (by simp)
    obtain ⟨i2, hi2, hc2⟩ := h "textures/carbonfiber.png" (by simp)
    obtain ⟨i3, hi3, hc3⟩ := h "textures/metal.jpg" (by simp)
    obtain ⟨i4, hi4, hc4⟩ := h "textures/greyplastic.jpg" (by simp)
    have e : (loadSceneTextures env initialState).1
        = ⟨[⟨env.genName 0, "blackmetal"⟩, ⟨env.genName 1, "carbonfiber"⟩,
            ⟨env.genName 2, "metal"⟩, ⟨env.genName 3, "greyplastic"⟩], []⟩ := by
      simp only [loadSceneTextures]
      rw [hi1, createGLTexture_success_state _ _ _ _ hc1,
          hi2, createGLTexture_success_state _ _ _ _ hc2,
          hi3, createGLTexture_success_state _ _ _ _ hc3,
          hi4, createGLTexture_success_state _ _ _ _ hc4]
      rfl
    constructor
    · rw [e]
    · have e2 : (loadSceneTextures env initialState).2
          = bindGLTextures (loadSceneTextures env initialState).1 := by
        simp only [loadSceneTextures]
      rw [e2, e]
      rfl
  · intro op s
    cases op with
    | opCreateGLTexture image textureID tag =>
        exact tags_mono_of_append (createGLTexture_appends image textureID tag s)
    | opBindGLTextures => exact ⟨[], by simp [applyOp], Nat.le_refl _⟩
    | opDestroyGLTextures gen =>
        refine ⟨[], ?_, ?_⟩
        · simp [applyOp, destroyGLTextures, regenIDs_map_tag]
        · simp [applyOp, m_loadedTextures, destroyGLTextures, regenIDs_length]
    | opFindTextureID tag => exact ⟨[], by simp [applyOp], Nat.le_refl _⟩
    | opFindTextureSlot tag => exact ⟨[], by simp [applyOp], Nat.le_refl _⟩
    | opFindMaterial tag material => exact ⟨[], by simp [applyOp], Nat.le_refl _⟩
    | opSetTransformations ops isNull scaleXYZ xr yr zr positionXYZ =>
        cases isNull <;> exact ⟨[], by simp [applyOp, setTransformations], Nat.le_refl _⟩
    | opSetShaderColor isNull r g b a =>
        cases isNull <;> exact ⟨[], by simp [applyOp, setShaderColor], Nat.le_refl _⟩
    | opSetShaderTexture isNull textureTag =>
        cases isNull <;> exact ⟨[], by simp [applyOp, setShaderTexture], Nat.le_refl _⟩
    | opSetTextureUVScale isNull u v =>
        cases isNull <;> exact ⟨[], by simp [applyOp, setTextureUVScale], Nat.le_refl _⟩
    | opSetShaderMaterial defaultMaterial materialTag =>
        exact ⟨[], by simp [applyOp, setShaderMaterial_state],
               by simp [applyOp, m_loadedTextures, setShaderMaterial_state]⟩
    | opDefineObjectMaterials =>
        exact ⟨[], by simp [applyOp, defineObjectMaterials_textureIDs],
               by simp [applyOp, m_loadedTextures, defineObjectMaterials_textureIDs]⟩
    | opSetupSceneLights => exact ⟨[], by simp [applyOp, setupSceneLights], Nat.le_refl _⟩
    | opLoadSceneTextures env =>
        exact tags_mono_of_append (loadSceneTextures_appends env s)
    | opPrepareScene env =>
        have h := tags_mono_of_append
          (loadSceneTextures_appends env (defineObjectMaterials s))
        obtain ⟨app, h1, h2⟩ := h
        refine ⟨app, ?_, ?_⟩
        · simpa [prepareScene, setupSceneLights, defineObjectMaterials_textureIDs]
            using h1
        · simpa [prepareScene, setupSceneLights, m_loadedTextures,
            defineObjectMaterials_textureIDs] using h2
    | opRenderScene => exact ⟨[], by simp [applyOp], Nat.le_refl _⟩

/-- Witness: a concrete environment loading every file as a 2x2 RGB image
registers the four tags and binds them. -/
theorem textures_never_evicted_witness :
    (loadSceneTextures ⟨fun _ => some ⟨2, 2, 3⟩, fun n => n + 1⟩ initialState).1.m_textureIDs
      = [⟨1, "blackmetal"⟩, ⟨2, "carbonfiber"⟩, ⟨3, "metal"⟩, ⟨4, "greyplastic"⟩] := by
  have h := (textures_never_evicted.1 ⟨fun _ => some ⟨2, 2, 3⟩, fun n => n + 1⟩
    (fun f _ => ⟨⟨2, 2, 3⟩, rfl, Or.inl rfl⟩)).1
  simpa using h

/-- C8: DefineObjectMaterials always appends exactly the five hand-authored
material constants with tags blackmetal, carbonfiber, metal, greyplastic,
clay, touching nothing else; and SetupSceneLights always emits the same
four light-source uniform groups followed by enabling bUseLighting,
regardless of the prior state. -/
theorem materials_lights_constant (s : SceneState) :
    (defineObjectMaterials s).m_objectMaterials
      = s.m_objectMaterials
        ++ [blackmetalMaterial, carbonfiberMaterial, metalMaterial,
            greyplasticMaterial, clayMaterial]
    ∧ (defineObjectMaterials s).m_objectMaterials.map OBJECT_MATERIAL.tag
      = s.m_objectMaterials.map OBJECT_MATERIAL.tag
        ++ ["blackmetal", "carbonfiber", "metal", "greyplastic", "clay"]
    ∧ (defineObjectMaterials s).m_textureIDs = s.m_textureIDs
    ∧ (setupSceneLights s).1 = s
    ∧ (setupSceneLights s).2
      = [ShaderCall.setVec3Value "lightSources[0].position" (5, 5, 5),
         ShaderCall.setVec3Value "lightSources[0].ambientColor" (0.01, 0.01, 0.01),
         ShaderCall.setVec3Value "lightSources[0].diffuseColor" (1, 0.4, 0.4),
         ShaderCall.setVec3Value "lightSources[0].specularColor" (0, 0, 0),
         ShaderCall.setFloatValue "lightSources[0].focalStrength" 32,
         ShaderCall.setFloatValue "lightSources[0].specularIntensity" 0.01,
         ShaderCall.setVec3Value "lightSources[1].position" (-3, 5, 5),
         ShaderCall.setVec3Value "lightSources[1].ambientColor" (1, 0.01, 0.01),
         ShaderCall.setVec3Value "lightSources[1].diffuseColor" (0.4, 0.4, 0.4),
         ShaderCall.setVec3Value "lightSources[1].specularColor" (0, 0, 0),
         ShaderCall.setFloatValue "lightSources[1].focalStrength" 32,
         ShaderCall.setFloatValue "lightSources[1].specularIntensity" 0.01,
         ShaderCall.setVec3Value "lightSources[2].position" (1.6, 5, 1),
         ShaderCall.setVec3Value "lightSources[2].ambientColor" (0.01, 0.01, 0.01),
         ShaderCall.setVec3Value "lightSources[2].diffuseColor" (0.3, 0.3, 0.3),
         ShaderCall.setVec3Value "lightSources[2].specularColor" (0.3, 0.3, 0.3),
         ShaderCall.setFloatValue "lightSources[2].focalStrength" 12,
         ShaderCall.setFloatValue "lightSources[2].specularIntensity" 0.1,
         ShaderCall.setVec3Value "lightSources[3].position" (4, 5, -5),
         ShaderCall.setVec3Value "lightSources[3].ambientColor" (0.01, 0.01, 0.01),
         ShaderCall.setVec3Value "lightSources[3].diffuseColor" (0.3, 0.3, 0.3),
         ShaderCall.setVec3Value "lightSources[3].specularColor" (0.3, 0.3, 0.3),
         ShaderCall.setFloatValue "lightSources[3].focalStrength" 12,
         ShaderCall.setFloatValue "lightSources[3].specularIntensity" 0.1,
         ShaderCall.setBoolValue "bUseLighting" true] := by
  refine ⟨?_, ?_, rfl, rfl, rfl⟩
  · simp [defineObjectMaterials]
  · simp [defineObjectMaterials, blackmetalMaterial, carbonfiberMaterial,
      metalMaterial, greyplasticMaterial, clayMaterial]

/-- C9: with a live shader manager, SetTransformations emits exactly one
uniform write, setting "model" to
translation(positionXYZ) * rotationZ * rotationY * rotationX *
scale(scaleXYZ), each rotation being the standard rotation about its
coordinate axis by the angle converted from degrees to radians; with a
null shader manager it emits nothing. -/
theorem setTransformations_model_matrix (α : Type) [Field α] (ops : RealOps α)
    (scaleXYZ : Vec3 α) (xr yr zr : α) (positionXYZ : Vec3 α) (s : SceneState) :
    setTransformations ops false scaleXYZ xr yr zr positionXYZ s
      = (s, [ShaderCall.setMat4Value "model"
          (glmTranslate positionXYZ
            * rotationAboutZ (ops.cos (glmRadians ops zr)) (ops.sin (glmRadians ops zr))
            * rotationAboutY (ops.cos (glmRadians ops yr)) (ops.sin (glmRadians ops yr))
            * rotationAboutX (ops.cos (glmRadians ops xr)) (ops.sin (glmRadians ops xr))
            * glmScale scaleXYZ)])
    ∧ setTransformations ops true scaleXYZ xr yr zr positionXYZ s = (s, []) := by
  constructor
  · simp only [setTransformations, glmRotate_unitX, glmRotate_unitY, glmRotate_unitZ,
      Bool.false_eq_true, if_false]
  · rfl

/-- Witness: the model-matrix theorem applied at the rationals with a
concrete trigonometric oracle and concrete transform arguments. -/
theorem setTransformations_model_matrix_witness :
    setTransformations (⟨fun _ => 1, fun _ => 0, 3⟩ : RealOps ℚ) true
        (1, 1, 1) 0 0 0 (0, 0, 0) initialState = (initialState, []) :=
  (setTransformations_model_matrix ℚ ⟨fun _ => 1, fun _ => 0, 3⟩
    (1, 1, 1) 0 0 0 (0, 0, 0) initialState).2

/-- C10: with a null shader manager, SetTransformations, SetShaderColor,
SetShaderTexture and SetTextureUVScale each emit no shader-manager call and
return the SceneManager state unchanged. -/
theorem null_shader_noop (ops : RealOps ℚ) (s : SceneState) (scaleXYZ : Vec3 ℚ)
    (xr yr zr : ℚ) (positionXYZ : Vec3 ℚ) (r g b a : ℚ) (textureTag : String)
    (u v : ℚ) :
    setTransformations ops true scaleXYZ xr yr zr positionXYZ s = (s, [])
    ∧ setShaderColor true r g b a s = (s, [])
    ∧ setShaderTexture true textureTag s = (s, [])
    ∧ setTextureUVScale true u v s = (s, []) :=
  ⟨rfl, rfl, rfl, rfl⟩

end SceneMgr
